import Mathlib

/-!
Verification of the PicoPTS Elliott 900 paper-tape-station emulator.

The development shallowly embeds the protocol logic of the two revisions of
the emulator source (the newer revision, called "rev A" below, defines
`request_type`, `gpio_debounce`, `get_punch_data`, `punch_output` and the
fault/dispatch logic of its `pts_emulation`; the older revision, "rev B",
adds the device timing model in `put_pts_ch` / `get_pts_ch` and the serial
command decoding in its `pts_emulation`).  GPIO words are `Nat` with the
source's bit masks; real time is `Nat` microseconds; the blocking
`sleep_until(t)` primitive is modelled by resuming at `max now t`, and
`make_timeout_time_us(d)` called at time `t` yields `t + d`.
-/

namespace PicoPTS

/-! ## GPIO pin numbers and masks (common to both revisions) -/

def RDR_1_PIN : Nat := 2
def PUN_1_PIN : Nat := 10
def IO_PIN : Nat := 18
def ACK_PIN : Nat := 19
def TTYSEL_PIN : Nat := 21
def RDRREQ_PIN : Nat := 22
def PUNREQ_PIN : Nat := 26
def LOG_PIN : Nat := 27

def LOG_BIT : Nat := 1 <<< LOG_PIN
def RDRREQ_BIT : Nat := 1 <<< RDRREQ_PIN
def PUNREQ_BIT : Nat := 1 <<< PUNREQ_PIN
def TTYSEL_BIT : Nat := 1 <<< TTYSEL_PIN

/-! ## Request type codes (rev A) -/

def NONE : Nat := 0
def READER : Nat := 1
def READ_TTY : Nat := 2
def PUNCH : Nat := 3
def WRITE_TTY : Nat := 4
def BAD : Nat := 5

/-! ## Fault codes -/

def COMMAND_FAIL : Nat := 1
def READ_PROTOCOL_FAIL : Nat := 2
def PUNCH_PROTOCOL_FAIL : Nat := 3
def REQUEST_FAIL : Nat := 4

/-! ## Blink rates and timings -/

def FAST_BLINK : Nat := 250
def SLOW_BLINK : Nat := 1000
def NO_BLINK : Nat := 0
def ACK_TIME : Nat := 2

/-- Rev A `request_type`: classify a (debounced) GPIO sample into a request
kind.  Direct translation of the C `if`/`else` chain; the C truth test
`if (request & TTYSEL_BIT)` is the Lean test `request &&& TTYSEL_BIT ≠ 0`. -/
def request_type (request : Nat) : Nat :=
  let rp := request &&& (RDRREQ_BIT ||| PUNREQ_BIT)
  if rp = RDRREQ_BIT then
    if request &&& TTYSEL_BIT ≠ 0 then READ_TTY else READER
  else if rp = PUNREQ_BIT then
    if request &&& TTYSEL_BIT ≠ 0 then WRITE_TTY else PUNCH
  else if rp = 0 then NONE
  else BAD

/-- Modelled from the spec: the truth table of §4.2 over the
(reader-flag, punch-flag, select-flag) triple, used to compare the
implementation `request_type` against the specified classifier. -/
def request_type_spec_table : Bool → Bool → Bool → Nat
  | false, false, _ => NONE
  | true, false, false => READER
  | true, false, true => READ_TTY
  | false, true, false => PUNCH
  | false, true, true => WRITE_TTY
  | true, true, _ => BAD

/-! ### Bit-extraction helper lemmas -/

theorem and_two_pow_ite (n i : Nat) :
    n &&& 2 ^ i = if n.testBit i then 2 ^ i else 0 := by
  rcases h : n.testBit i with _ | _ <;> simp [Nat.and_two_pow, h]

theorem and_two_pow_or_two_pow (n a b : Nat) :
    n &&& (2 ^ a ||| 2 ^ b) =
      (if n.testBit a then 2 ^ a else 0) ||| (if n.testBit b then 2 ^ b else 0) := by
  apply Nat.eq_of_testBit_eq
  intro i
  rcases ha : n.testBit a <;> rcases hb : n.testBit b <;>
    by_cases hia : a = i <;> by_cases hib : b = i <;>
      simp [Nat.testBit_and, Nat.testBit_or, Nat.testBit_two_pow,
            ha, hb, hia, hib] <;>
      simp_all

/-- The classifier agrees with the §4.2 truth table on the three request
bits of an arbitrary raw sample.  Shared by the C1 and C10 theorems. -/
theorem request_type_eq_table (n : Nat) :
    request_type n =
      request_type_spec_table (n.testBit RDRREQ_PIN) (n.testBit PUNREQ_PIN)
        (n.testBit TTYSEL_PIN) := by
  have hmask : RDRREQ_BIT ||| PUNREQ_BIT = 2 ^ RDRREQ_PIN ||| 2 ^ PUNREQ_PIN := by
    simp [RDRREQ_BIT, PUNREQ_BIT, Nat.one_shiftLeft]
  have hrp := and_two_pow_or_two_pow n RDRREQ_PIN PUNREQ_PIN
  have htty : n &&& TTYSEL_BIT = if n.testBit TTYSEL_PIN then 2 ^ TTYSEL_PIN else 0 := by
    simpa [TTYSEL_BIT, Nat.one_shiftLeft] using and_two_pow_ite n TTYSEL_PIN
  unfold request_type
  rw [hmask, hrp, htty]
  rcases n.testBit RDRREQ_PIN <;> rcases n.testBit PUNREQ_PIN <;>
    rcases n.testBit TTYSEL_PIN <;>
      simp [request_type_spec_table, RDRREQ_BIT, PUNREQ_BIT,
            RDRREQ_PIN, PUNREQ_PIN, TTYSEL_PIN, Nat.one_shiftLeft,
            NONE, READER, READ_TTY, PUNCH, WRITE_TTY, BAD]

/-- C1: the request classifier maps the (reader-request, punch-request,
teletype-select) flags of every raw line sample to a request kind exactly
per the §4.2 truth table: both request flags low gives `NONE` for either
select value; reader only gives `READER` when select is low and `READ_TTY`
when select is high; punch only gives `PUNCH` when select is low and
`WRITE_TTY` when select is high; both request flags high gives `BAD`
regardless of the select flag — all 8 flag combinations covered. -/
theorem c1_request_type_truth_table (n : Nat) :
    request_type n =
      request_type_spec_table (n.testBit RDRREQ_PIN) (n.testBit PUNREQ_PIN)
        (n.testBit TTYSEL_PIN) :=
  request_type_eq_table n

/-- C10: the classifier's result depends only on the reader-request,
punch-request and teletype-select bits: two raw samples agreeing on those
three bits classify identically, regardless of the punch data bits, the
logging bit, or any other line state. -/
theorem c10_request_type_noninterference (a b : Nat)
    (hr : a.testBit RDRREQ_PIN = b.testBit RDRREQ_PIN)
    (hp : a.testBit PUNREQ_PIN = b.testBit PUNREQ_PIN)
    (ht : a.testBit TTYSEL_PIN = b.testBit TTYSEL_PIN) :
    request_type a = request_type b := by
  rw [request_type_eq_table a, request_type_eq_table b, hr, hp, ht]

/-- Witness for C10: the samples `RDRREQ` alone and `RDRREQ` plus all eight
punch data bits plus the logging bit agree on the three request bits, and
the classifier gives the same answer on both. -/
theorem c10_witness :
    (Nat.testBit 4194304 RDRREQ_PIN = Nat.testBit 138673152 RDRREQ_PIN) ∧
    (Nat.testBit 4194304 PUNREQ_PIN = Nat.testBit 138673152 PUNREQ_PIN) ∧
    (Nat.testBit 4194304 TTYSEL_PIN = Nat.testBit 138673152 TTYSEL_PIN) ∧
    request_type 4194304 = request_type 138673152 :=
  ⟨by decide, by decide, by decide,
   c10_request_type_noninterference 4194304 138673152
     (by decide) (by decide) (by decide)⟩

/-! ## Signal sampler (rev A `gpio_debounce`)

The C routine reads `gpio_get_all() & in_pins_mask` once per iteration of
an unbounded loop.  The successive masked samples are made explicit as a
list argument; running out of listed samples models "the loop would keep
sampling" and returns `none`. -/

/-- Loop of rev A `gpio_debounce`, with the loop state `(count, last, next)`
exactly as in the source: the top of the loop returns `next` once
`count ≥ 2`; otherwise `count` is incremented when `last = next` and reset
to `0` when not, then `last` slides to `next` and `next` takes the fresh
sample. -/
def gpio_debounce_loop (count last next : Nat) : List Nat → Option Nat
  | [] => if count ≥ 2 then some next else none
  | s :: rest =>
    if count ≥ 2 then some next
    else gpio_debounce_loop (if last = next then count + 1 else 0) next s rest

/-- Rev A `gpio_debounce` on an explicit sample stream: the first listed
sample initialises `next`; `count` starts at `1` and `last` at `0`. -/
def gpio_debounce (samples : List Nat) : Option Nat :=
  match samples with
  | [] => none
  | s :: rest => gpio_debounce_loop 1 0 s rest

/-- C2 (code bug): the debounced sampler can return a value observed on a
single poll.  On the sample stream `0, 9` the initialisation `count = 1,
last = 0` lets the zero first sample count as a confirmation, and the
unconfirmed second sample `9` is returned; on `5, 5, 5, 7` the stable run
of `5`s satisfies the two-consecutive-sample check but the loop then takes
one more sample and returns it, so the one-poll glitch `7` is returned. -/
theorem c2_debounce_returns_one_poll_glitch :
    gpio_debounce [0, 9] = some 9 ∧ gpio_debounce [5, 5, 5, 7] = some 7 := by
  exact ⟨rfl, rfl⟩

/-! ## Handshake driver and serial forwarding (rev A)

The externally visible actions of a transfer are recorded as an event
trace: serial bytes written with `putchar_raw`, `stdio_flush`, GPIO writes,
microsecond sleeps, and the `wait_for_no_request` spin. -/

inductive Ev where
  | serial (b : Nat)
  | flush
  | gpio_put (pin : Nat) (v : Bool)
  | sleepUs (t : Nat)
  | waitNoRequest
deriving DecidableEq

/-- Rev A `ack()`: raise `ACK_PIN`, hold for `ACK_TIME` µs, lower it. -/
def ack_trace : List Ev :=
  [Ev.gpio_put ACK_PIN true, Ev.sleepUs ACK_TIME, Ev.gpio_put ACK_PIN false]

/-- Rev A `io_on()`. -/
def io_on_trace : List Ev := [Ev.gpio_put IO_PIN true]

/-- Rev A `io_off()`. -/
def io_off_trace : List Ev := [Ev.gpio_put IO_PIN false]

/-- Rev A `get_punch_data`: extract the 8-bit punch data field from a
sampled request word. -/
def get_punch_data (request : Nat) : Nat :=
  (request >>> PUN_1_PIN) &&& 255

/-- Rev A `punch_output`: light the i/o LED, send the tag byte
(`'Q'` = 81 for teletype, `'P'` = 80 for punch) then the data byte to the
operator, flush, pulse the acknowledge, wait for the request lines to
clear, extinguish the LED. -/
def punch_output (ch : Nat) (tty : Bool) : List Ev :=
  io_on_trace ++
    [Ev.serial (if tty then 81 else 80), Ev.serial ch, Ev.flush] ++
    ack_trace ++ [Ev.waitNoRequest] ++ io_off_trace

/-- C6: in a PunchWrite (or TeletypeWrite) transfer the captured byte is
exactly the 8-bit punch data field of the sampled request (so an input bus
of 0xFF captures 0xFF), and that byte is forwarded to the operator
immediately preceded by the tag byte `'P'` (`'Q'` for teletype), with the
acknowledge pulse coming only afterwards. -/
theorem c6_punch_write_capture_and_forward (request : Nat) (tty : Bool) :
    get_punch_data request = request / 2 ^ PUN_1_PIN % 2 ^ 8 ∧
    get_punch_data (255 <<< PUN_1_PIN) = 255 ∧
    punch_output (get_punch_data request) tty =
      [Ev.gpio_put IO_PIN true,
       Ev.serial (if tty then 81 else 80),
       Ev.serial (get_punch_data request),
       Ev.flush,
       Ev.gpio_put ACK_PIN true, Ev.sleepUs ACK_TIME, Ev.gpio_put ACK_PIN false,
       Ev.waitNoRequest,
       Ev.gpio_put IO_PIN false] := by
  refine ⟨?_, by decide, rfl⟩
  show request >>> PUN_1_PIN &&& 255 = request / 2 ^ PUN_1_PIN % 2 ^ 8
  have h255 : (255 : Nat) = 2 ^ 8 - 1 := by decide
  rw [h255, Nat.and_pow_two_sub_one_eq_mod, Nat.shiftRight_eq_div_pow]

/-! ## Emulation loop: fault handling and request dispatch

Both revisions of `pts_emulation` begin with `if (fail_code = setjmp(jbuf))`.
On a `longjmp` the handler sets `blink = FAST_BLINK`, calls `cancel_ack()`
(forcing the acknowledge line low) and `io_off()`, and then — only inside
`if (logging())` — prints the diagnostic and parks forever; when logging is
disabled, control falls out of the handler block into the restart sequence,
which sets `blink = SLOW_BLINK` and resumes the polling loop.  The
observable outcome is a `SysState`. -/

inductive Mode where
  | polling
  | halted
deriving DecidableEq

structure SysState where
  mode : Mode
  blink : Nat
  ack : Bool
deriving DecidableEq

/-- Rev A `error_messages` (source text kept verbatim). -/
def error_messages : List String :=
  ["1 - Unknown operator command",
   "2 - Read protocol error",
   "3 - Punch protocol error",
   "4 = Simultaneous read and punch requests"]

/-- Rev B `error_messages`. -/
def error_messages_revB : List String :=
  ["1 - Unknown operator command",
   "2 - Read protocol error",
   "3 - Punch protocol error"]

/-- Rev A fault entry of `pts_emulation` (the `setjmp` block together with
what follows it): result state and emitted log lines after a
`longjmp(jbuf, code)`.  With logging enabled the handler prints and calls
`halt()`, parking forever with the fast blink and the acknowledge forced
low; with logging disabled it falls through to the restart sequence and
returns to polling with the slow blink. -/
def fault_step_revA (log : Bool) (code : Nat) : SysState × List String :=
  if log then
    ({ mode := Mode.halted, blink := FAST_BLINK, ack := false },
     ["LPicoPTS - Halted after error - " ++ error_messages.getD (code - 1) "" ++ "\n",
      "LPicoPTS - Halted\n"])
  else
    ({ mode := Mode.polling, blink := SLOW_BLINK, ack := false }, [])

/-- Rev B fault entry of `pts_emulation`: identical control structure (the
park loop `while (TRUE) sleep_ms(INT32_MAX)` is inside `if (logging())`),
so with logging disabled it likewise falls through to the restart path and
resumes polling. -/
def fault_step_revB (log : Bool) (code : Nat) : SysState × List String :=
  if log then
    ({ mode := Mode.halted, blink := FAST_BLINK, ack := false },
     ["LPicoPTS - Halted after error - " ++ error_messages_revB.getD (code - 1) "" ++ "\n"])
  else
    ({ mode := Mode.polling, blink := SLOW_BLINK, ack := false }, [])

/-- Action selected by the `switch (request_type(request))` in rev A
`pts_emulation`. -/
inductive P1Action where
  | ackLow
  | readInput (tty : Bool)
  | punchOutput (ch : Nat) (tty : Bool)
  | fault (code : Nat)
  | internalError
deriving DecidableEq

/-- Rev A `pts_emulation` GPIO dispatch: the `switch` on
`request_type(request)`.  `NONE` deasserts the acknowledge; the four
transfer kinds start the corresponding transfer; `BAD` raises
`longjmp(jbuf, REQUEST_FAIL)`; the `default` branch logs an internal error
and halts. -/
def pts_emulation_dispatch (request : Nat) : P1Action :=
  if request_type request = NONE then P1Action.ackLow
  else if request_type request = READER then P1Action.readInput false
  else if request_type request = READ_TTY then P1Action.readInput true
  else if request_type request = PUNCH then
    P1Action.punchOutput (get_punch_data request) false
  else if request_type request = WRITE_TTY then
    P1Action.punchOutput (get_punch_data request) true
  else if request_type request = BAD then P1Action.fault REQUEST_FAIL
  else P1Action.internalError

/-- C3 (code bug): a debounced sample with both request lines high always
raises the fault `REQUEST_FAIL` ("simultaneous read and punch requests"),
but the fault entry only halts inside `if (logging())`: with logging
disabled the handler falls through to the restart sequence and the system
returns to polling with the slow blink instead of parking in the terminal
halted state. -/
theorem c3_simultaneous_request_fault_not_terminal :
    pts_emulation_dispatch (RDRREQ_BIT ||| PUNREQ_BIT) = P1Action.fault REQUEST_FAIL ∧
    (fault_step_revA false REQUEST_FAIL).1 =
      { mode := Mode.polling, blink := SLOW_BLINK, ack := false } := by
  exact ⟨rfl, rfl⟩

/-- C4 (code bug): after a fault with logging enabled the system does park
(halted, fast blink, acknowledge forced low), but with logging disabled the
same fault entry resumes polling — the park-indefinitely behaviour does not
hold "whether logging is enabled or disabled" as claimed. -/
theorem c4_halted_parks_only_with_logging :
    (fault_step_revA true READ_PROTOCOL_FAIL).1 =
      { mode := Mode.halted, blink := FAST_BLINK, ack := false } ∧
    (fault_step_revA false READ_PROTOCOL_FAIL).1 =
      { mode := Mode.polling, blink := SLOW_BLINK, ack := false } := by
  exact ⟨rfl, rfl⟩

/-! ## Device timing model (rev B)

Rev B keeps three deadlines `reader_free`, `punch_free`, `tty_free` and
three periods `reader_time`, `punch_time`, `tty_time`.  `put_pts_ch` gates
the teletype or the reader and `get_pts_ch` gates the teletype or the
punch, each with the pattern `sleep_until(dev_free);
dev_free = make_timeout_time_us(dev_time);`.  `sleep_until(t)` at time
`now` resumes at `max now t`, and `make_timeout_time_us(d)` evaluated at
the resume time `t` yields `t + d`. -/

def FAST_TTY : Nat := 5
def SLOW_READER : Nat := 4000
def FAST_READER : Nat := 5
def SLOW_TTY : Nat := 100000
def FAST_PUNCH : Nat := 5
def SLOW_PUNCH : Nat := 9091

structure Timing where
  reader_free : Nat
  punch_free : Nat
  tty_free : Nat
  reader_time : Nat
  punch_time : Nat
  tty_time : Nat
deriving DecidableEq

inductive Device where
  | reader
  | punch
  | tty
deriving DecidableEq

/-- The `*_free` deadline of a device. -/
def deadline : Device → Timing → Nat
  | Device.reader, s => s.reader_free
  | Device.punch, s => s.punch_free
  | Device.tty, s => s.tty_free

/-- The configured `*_time` period of a device. -/
def period : Device → Timing → Nat
  | Device.reader, s => s.reader_time
  | Device.punch, s => s.punch_time
  | Device.tty, s => s.tty_time

/-- The gate of the rev B timing model: the `sleep_until` /
`make_timeout_time_us` pair at the head of `put_pts_ch` (reader and tty
branches) and `get_pts_ch` (punch and tty branches).  Returns the resume
time together with the updated timing state. -/
def gate (dev : Device) (s : Timing) (now : Nat) : Nat × Timing :=
  match dev with
  | Device.reader =>
    let t := max now s.reader_free
    (t, { s with reader_free := t + s.reader_time })
  | Device.punch =>
    let t := max now s.punch_free
    (t, { s with punch_free := t + s.punch_time })
  | Device.tty =>
    let t := max now s.tty_free
    (t, { s with tty_free := t + s.tty_time })

/-- Timing state at the rev B restart point: all three deadlines set to
`get_absolute_time()` and the globals initialised to the slow preset. -/
def initial_timing (now : Nat) : Timing :=
  { reader_free := now, punch_free := now, tty_free := now,
    reader_time := SLOW_READER, punch_time := SLOW_PUNCH, tty_time := SLOW_TTY }

/-- C7: for each device timer, the gate resumes no earlier than the call
time and no earlier than the device's deadline, it sets the deadline to the
resume time plus the device's configured period, and consequently a second
gate of the same device — whatever the time of that call — resumes no
earlier than the first resume time plus the period. -/
theorem c7_gate_throttles_transfers (dev : Device) (s : Timing) (now now2 : Nat) :
    now ≤ (gate dev s now).1 ∧
    deadline dev s ≤ (gate dev s now).1 ∧
    deadline dev (gate dev s now).2 = (gate dev s now).1 + period dev s ∧
    (gate dev s now).1 + period dev s ≤ (gate dev (gate dev s now).2 now2).1 := by
  cases dev <;>
    simp [gate, deadline, period, Nat.le_max_left, Nat.le_max_right]

/-! ## Timing profile toggle and serial command decoding (rev B) -/

/-- The triple of configured periods, in source order
(`reader_time`, `punch_time`, `tty_time`). -/
def profile (s : Timing) : Nat × Nat × Nat :=
  (s.reader_time, s.punch_time, s.tty_time)

/-- The slow (historically realistic) preset. -/
def slow_profile : Nat × Nat × Nat := (SLOW_READER, SLOW_PUNCH, SLOW_TTY)

/-- The fast (development) preset. -/
def fast_profile : Nat × Nat × Nat := (FAST_READER, FAST_PUNCH, FAST_TTY)

/-- The `case 'D'` body of rev B `pts_emulation`: if `reader_time` equals
`FAST_READER` switch all three periods to the slow preset, otherwise switch
all three to the fast preset.  The deadlines are untouched. -/
def toggle_rate (s : Timing) : Timing :=
  if s.reader_time = FAST_READER then
    { s with reader_time := SLOW_READER, tty_time := SLOW_TTY,
             punch_time := SLOW_PUNCH }
  else
    { s with reader_time := FAST_READER, tty_time := FAST_TTY,
             punch_time := FAST_PUNCH }

/-- Outcome of decoding one inbound serial byte. -/
inductive CmdResult where
  | ok : Timing → CmdResult
  | fault : Nat → CmdResult
deriving DecidableEq

/-- The serial-command `switch` at the top of each rev B `pts_emulation`
iteration.  `none` models `PICO_ERROR_TIMEOUT` (no byte pending).  NUL and
DEL bytes are ignored; `'D'` (= 68) toggles the data rate; any other byte
is logged when logging is enabled and otherwise raises
`longjmp(jbuf, COMMAND_FAIL)`.  The second component lists the log lines
printed. -/
def command_step (log : Bool) (input : Option Nat) (s : Timing) :
    CmdResult × List String :=
  match input with
  | none => (CmdResult.ok s, [])
  | some 0 =>
    (CmdResult.ok s, if log then ["LPicoPTS - NUL ignored\n"] else [])
  | some 255 =>
    (CmdResult.ok s, if log then ["LPicoPTS - DEL ignored\n"] else [])
  | some 68 =>
    (CmdResult.ok (toggle_rate s),
     if log then
       if s.reader_time = FAST_READER then
         ["LPicoPTS - switching to slow devices\n"]
       else
         ["LPicoPTS - switching to fast devices\n"]
     else [])
  | some d =>
    if log then
      (CmdResult.ok s, ["LPicoPTS - Unrecognized command " ++ toString d ++ "\n"])
    else
      (CmdResult.fault COMMAND_FAIL, [])

/-- C5 (code bug): an unrecognized inbound byte (here `'X'` = 88) with
logging enabled is logged and discarded, leaving the timing state untouched
and the loop polling; with logging disabled it raises the fault
`COMMAND_FAIL` — but the rev B fault entry only parks inside
`if (logging())`, so with logging disabled the system falls through to the
restart path and resumes polling instead of halting. -/
theorem c5_unrecognized_command_fault_not_terminal :
    command_step true (some 88) (initial_timing 0) =
      (CmdResult.ok (initial_timing 0),
       ["LPicoPTS - Unrecognized command 88\n"]) ∧
    (command_step false (some 88) (initial_timing 0)).1 =
      CmdResult.fault COMMAND_FAIL ∧
    (fault_step_revB false COMMAND_FAIL).1 =
      { mode := Mode.polling, blink := SLOW_BLINK, ack := false } := by
  exact ⟨rfl, rfl, rfl⟩

/-- C9: an inbound NUL (0) or DEL (255) byte is discarded without raising
any fault whatever the logging setting; the timing state is returned
unchanged and the only effect of logging is the optional log message. -/
theorem c9_nul_del_ignored (log : Bool) (s : Timing) :
    command_step log (some 0) s =
      (CmdResult.ok s, if log then ["LPicoPTS - NUL ignored\n"] else []) ∧
    command_step log (some 255) s =
      (CmdResult.ok s, if log then ["LPicoPTS - DEL ignored\n"] else []) := by
  exact ⟨rfl, rfl⟩

/-- C8: processing the rate-toggle command `'D'` flips the three device
periods as a unit between the slow and fast presets, leaves every deadline
unchanged, and a gate performed after the toggle still blocks on the old
deadline while establishing its new deadline from the newly configured
period. -/
theorem c8_rate_toggle_atomic_not_retroactive (s : Timing) (dev : Device)
    (now : Nat) (h : profile s = slow_profile ∨ profile s = fast_profile) :
    (command_step false (some 68) s).1 = CmdResult.ok (toggle_rate s) ∧
    profile (toggle_rate s) =
      (if profile s = slow_profile then fast_profile else slow_profile) ∧
    deadline dev (toggle_rate s) = deadline dev s ∧
    deadline dev (gate dev (toggle_rate s) now).2 =
      max now (deadline dev s) + period dev (toggle_rate s) := by
  have hfree : (toggle_rate s).reader_free = s.reader_free ∧
      (toggle_rate s).punch_free = s.punch_free ∧
      (toggle_rate s).tty_free = s.tty_free := by
    unfold toggle_rate
    split <;> exact ⟨rfl, rfl, rfl⟩
  have hflip : profile (toggle_rate s) =
      (if profile s = slow_profile then fast_profile else slow_profile) := by
    rcases h with h | h
    · simp only [profile, slow_profile, Prod.mk.injEq] at h
      obtain ⟨h1, h2, h3⟩ := h
      simp [profile, toggle_rate, slow_profile, fast_profile, h1, h2, h3,
            SLOW_READER, FAST_READER, SLOW_PUNCH, FAST_PUNCH, SLOW_TTY, FAST_TTY]
    · simp only [profile, fast_profile, Prod.mk.injEq] at h
      obtain ⟨h1, h2, h3⟩ := h
      simp [profile, toggle_rate, slow_profile, fast_profile, h1, h2, h3,
            SLOW_READER, FAST_READER, SLOW_PUNCH, FAST_PUNCH, SLOW_TTY, FAST_TTY]
  refine ⟨rfl, hflip, ?_, ?_⟩
  · cases dev <;> simp [deadline, hfree.1, hfree.2.1, hfree.2.2]
  · cases dev <;> simp [gate, deadline, period, hfree.1, hfree.2.1, hfree.2.2]

/-- Witness for C8: toggling from the freshly initialised slow state flips
to the fast preset, keeps the punch deadline, and the next punch gate uses
the new period on top of the old deadline. -/
theorem c8_witness :
    (profile (initial_timing 7) = slow_profile ∨
      profile (initial_timing 7) = fast_profile) ∧
    ((command_step false (some 68) (initial_timing 7)).1 =
        CmdResult.ok (toggle_rate (initial_timing 7)) ∧
      profile (toggle_rate (initial_timing 7)) =
        (if profile (initial_timing 7) = slow_profile then fast_profile
         else slow_profile) ∧
      deadline Device.punch (toggle_rate (initial_timing 7)) =
        deadline Device.punch (initial_timing 7) ∧
      deadline Device.punch
          (gate Device.punch (toggle_rate (initial_timing 7)) 5).2 =
        max 5 (deadline Device.punch (initial_timing 7)) +
          period Device.punch (toggle_rate (initial_timing 7))) :=
  ⟨Or.inl rfl,
   c8_rate_toggle_atomic_not_retroactive (initial_timing 7) Device.punch 5
     (Or.inl rfl)⟩

end PicoPTS
